import Mathlib

/-!
Shallow embedding of the rag-voice-assistant repository's core
(`app.py`, `api_server.py`, `stt_tts_utils.py`) and proofs of the
specification's claims about it.

Modelling conventions:
* The SQLite tables `projects` and `project_files` are lists of rows;
  SQL statements are translated to list operations with the same
  semantics (INSERT OR REPLACE deletes the conflicting primary-key row
  and appends the new one; UPDATE maps over rows; a UNIQUE / PRIMARY KEY
  violation on INSERT raises, modelled as `Except.error .conflict`).
* Timestamps (`now_iso()`) are passed in explicitly as `Nat` values.
* Remote OpenAI calls are modelled by oracles (`Except`-valued inputs
  describing the provider's response) plus an explicit trace of the
  remote calls a flow issues, so "issues zero remote calls" is statable.
* Byte strings (file contents, audio) are abstracted to `String`; the
  SHA-256 fingerprint of an upload is carried as its own value.
-/

/-- A row of the `projects` table (see `init_db` in app.py):
`project_id` PRIMARY KEY, `vector_store_id` UNIQUE. -/
structure ProjectRow where
  project_id : String
  project_name : String
  vector_store_id : String
  status : String
  created_at : Nat
  updated_at : Nat
  deriving DecidableEq, Repr

/-- A row of the `project_files` table (see `init_db` in app.py):
PRIMARY KEY (project_id, file_id); `sha256` is nullable. -/
structure FileRow where
  project_id : String
  file_id : String
  filename : String
  sha256 : Option String
  added_at : Nat
  deriving DecidableEq, Repr

/-- The local catalog database (the two tables of app.py's schema). -/
structure DB where
  projects : List ProjectRow
  project_files : List FileRow
  deriving DecidableEq, Repr

/-- Error raised by a catalog write; `conflict` models sqlite3's
IntegrityError on a PRIMARY KEY / UNIQUE violation. -/
inductive CatalogError where
  | conflict
  deriving DecidableEq, Repr

/-- app.py `db_create_project`: INSERT a fresh project row with
status "active" and `created_at = updated_at = ts`.  The INSERT raises
IntegrityError when `project_id` (PRIMARY KEY) or `vector_store_id`
(UNIQUE) is already present.  The generated uuid is passed in as `pid`. -/
def db_create_project (db : DB) (pid name vsId : String) (ts : Nat) :
    Except CatalogError DB :=
  if db.projects.any (fun p => decide (p.project_id = pid)) then
    .error .conflict
  else if db.projects.any (fun p => decide (p.vector_store_id = vsId)) then
    .error .conflict
  else
    .ok { db with projects := db.projects ++ [⟨pid, name, vsId, "active", ts, ts⟩] }

/-- app.py `db_rename_project`: UPDATE projects SET project_name, updated_at
WHERE project_id = pid.  The UPDATE touches no constrained column, so it
cannot raise; a pid matching no row simply updates zero rows. -/
def db_rename_project (db : DB) (pid newName : String) (ts : Nat) :
    Except CatalogError DB :=
  let updated := db.projects.map (fun p =>
    if p.project_id = pid then
      { p with project_name := newName, updated_at := ts }
    else p)
  .ok { db with projects := updated }

/-- app.py `db_archive_project`: UPDATE projects SET status='archived',
updated_at WHERE project_id = pid. -/
def db_archive_project (db : DB) (pid : String) (ts : Nat) : DB :=
  let updated := db.projects.map (fun p =>
    if p.project_id = pid then
      { p with status := "archived", updated_at := ts }
    else p)
  { db with projects := updated }

/-- app.py `db_list_project_files`: SELECT rows of `project_files` with the
given project_id.  (The ORDER BY added_at DESC only affects display order
and is not modelled; all claims are about the row set.) -/
def db_list_project_files (db : DB) (pid : String) : List FileRow :=
  db.project_files.filter (fun r => decide (r.project_id = pid))

/-- app.py `db_add_project_file`: INSERT OR REPLACE into `project_files`;
the row with the same (project_id, file_id) primary key, if any, is
replaced. -/
def db_add_project_file (db : DB) (pid fid fname : String)
    (sha : Option String) (ts : Nat) : DB :=
  let kept := db.project_files.filter
    (fun r => decide (¬ (r.project_id = pid ∧ r.file_id = fid)))
  { db with project_files := kept ++ [⟨pid, fid, fname, sha, ts⟩] }

/-- app.py `db_remove_project_file`: DELETE FROM project_files
WHERE project_id = pid AND file_id = fid. -/
def db_remove_project_file (db : DB) (pid fid : String) : DB :=
  let kept := db.project_files.filter
    (fun r => decide (¬ (r.project_id = pid ∧ r.file_id = fid)))
  { db with project_files := kept }

/-- app.py `db_has_sha_in_project`: SELECT 1 ... WHERE project_id = pid AND
sha256 = sha LIMIT 1, as an existence check. -/
def db_has_sha_in_project (db : DB) (pid sha : String) : Bool :=
  db.project_files.any
    (fun r => decide (r.project_id = pid ∧ r.sha256 = some sha))

/-- Number of `project_files` rows of project `pid` carrying fingerprint
`sha` (counting helper used to state the dedup invariant). -/
def countSha (db : DB) (pid sha : String) : Nat :=
  (db.project_files.filter
    (fun r => decide (r.project_id = pid ∧ r.sha256 = some sha))).length

/-- Number of project rows bound to remote index `vsId` (counting helper
used to state the uniqueness invariant). -/
def countVs (db : DB) (vsId : String) : Nat :=
  (db.projects.filter (fun p => decide (p.vector_store_id = vsId))).length

/-- A remote OpenAI call issued by the admin upload/remove flows in app.py. -/
inductive RemoteCall where
  | filesCreate (filename sha : String)
  | fileBatchesCreate (vsId fileId : String)
  | filesDelete (vsId fileId : String)
  deriving DecidableEq, Repr

/-- app.py `tab_upload`, the body of the per-file loop: compute the sha of
the bytes; when dedup is on and the project already has that sha, skip the
file (no remote call, no local write); otherwise upload the bytes
(`client.files.create`), register the returned file id into the vector
store (`client.vector_stores.file_batches.create`), and record the mapping
locally.  `freshFileId` stands for the id the Files API returns; the pair
returned is the catalog state and the trace of remote calls issued. -/
def tab_upload_one (dedup : Bool) (db : DB) (pid vsId fileName sha freshFileId : String)
    (ts : Nat) : DB × List RemoteCall :=
  if dedup && db_has_sha_in_project db pid sha then
    (db, [])
  else
    (db_add_project_file db pid freshFileId fileName (some sha) ts,
     [.filesCreate fileName sha, .fileBatchesCreate vsId freshFileId])

/-- app.py `tab_list`, the remove button: first
`client.vector_stores.files.delete(...)`, then `db_remove_project_file`.
Both steps are inside one try/except, so when the remote delete raises
(`remoteDelete = .error _`) the local delete never executes.  The stripped
file id is used for both calls; `fid` stands for the already-stripped id. -/
def tab_list_remove (db : DB) (pid fid : String)
    (remoteDelete : Except String Unit) : DB :=
  match remoteDelete with
  | .error _ => db
  | .ok _ => db_remove_project_file db pid fid

/-- The set (deduplicated list) of file ids the catalog records for a
project: `set([x["file_id"] for x in db_list_project_files(pid)])`. -/
def localFileIds (db : DB) (pid : String) : List String :=
  ((db_list_project_files db pid).map (fun r => r.file_id)).dedup

/-- app.py `tab_sync`, the reconcile button (steps 1-4): read the remote
vector-store file listing (`remoteIds`, passed in as the gateway's answer),
form the two set differences, and report them.  No catalog write happens,
so the state is returned unchanged alongside
`missing_in_remote = local - remote` and `missing_in_local = remote - local`.
(The `sorted(...)` in the source only orders the display; the claims are
about the reported sets, so ordering is not modelled.) -/
def reconcile (db : DB) (pid : String) (remoteIds : List String) :
    DB × List String × List String :=
  let remoteSet := remoteIds.dedup
  let localSet := localFileIds db pid
  (db,
   localSet.filter (fun x => decide (x ∉ remoteSet)),
   remoteSet.filter (fun x => decide (x ∉ localSet)))

/-- app.py `tab_sync`, the repair button (step 5): for each id in
`missing_in_local`, add a catalog row using the remote file id as the
placeholder filename and a null fingerprint. -/
def repair (db : DB) (pid : String) (remoteIds : List String) (ts : Nat) : DB :=
  (reconcile db pid remoteIds).2.2.foldl
    (fun d fid => db_add_project_file d pid fid fid none ts) db

/-- An HTTP error raised by api_server.py (fastapi.HTTPException). -/
structure HTTPError where
  status_code : Nat
  detail : String
  deriving DecidableEq, Repr

/-- api_server.py `ChatReq`. -/
structure ChatReq where
  project_id : String
  user_id : String
  message : String
  deriving DecidableEq, Repr

/-- A citation entry of the response shape `{filename, page?, quote?}`.
The service never constructs one (citations are a defined extension point). -/
structure Citation where
  filename : String
  page : Option Nat
  quote : Option String
  deriving DecidableEq, Repr

/-- api_server.py `ChatResp`: `answer: str`, `citations: list`. -/
structure ChatResp where
  answer : String
  citations : List Citation
  deriving DecidableEq, Repr

/-- api_server.py `get_vector_store_id`: SELECT vector_store_id FROM projects
WHERE project_id=? AND status='active'; 404 when no row matches, 500 when
the stored id is falsy (empty). -/
def get_vector_store_id (rows : List ProjectRow) (pid : String) :
    Except HTTPError String :=
  match rows.find? (fun r => decide (r.project_id = pid ∧ r.status = "active")) with
  | none => .error ⟨404, "project_id not found or inactive: " ++ pid⟩
  | some row =>
      if row.vector_store_id = "" then
        .error ⟨500, "vector_store_id is empty for project_id: " ++ pid⟩
      else
        .ok row.vector_store_id

/-- A remote call issued by the chat endpoint (the Responses API invocation
with the file_search tool bound to one vector store). -/
inductive AnswerCall where
  | responsesCreate (vsId message : String)
  deriving DecidableEq, Repr

/-- api_server.py `chat` (POST /chat): resolve the project's vector store id
(raising 404/500 before any remote call), then call `client.responses.create`.
The external capability is the oracle `responses`: `.error e` models the call
raising (turned into HTTP 500), `.ok t` models a response whose `output_text`
attribute is `t` (`none` when absent; `getattr(resp, "output_text", None) or ""`
becomes `t.getD ""`).  Citations are returned empty.  The second component
traces the remote calls issued. -/
def chat (rows : List ProjectRow)
    (responses : String → String → Except String (Option String))
    (req : ChatReq) : Except HTTPError ChatResp × List AnswerCall :=
  match get_vector_store_id rows req.project_id with
  | .error e => (.error e, [])
  | .ok vsId =>
      match responses vsId req.message with
      | .error e =>
          (.error ⟨500, "OpenAI call failed: " ++ e⟩,
           [.responsesCreate vsId req.message])
      | .ok t =>
          (.ok ⟨t.getD "", []⟩, [.responsesCreate vsId req.message])

/-- Which internal provider implementation of stt_tts_utils.py was invoked. -/
inductive ProviderCall where
  | googleSttCall
  | openaiSttCall
  | googleTtsCall
  | openaiTtsCall
  deriving DecidableEq, Repr

/-- stt_tts_utils.py `_google_stt`: the provider interaction (audio decode,
recognize call) is summarised by `resp`: `.error e` models any exception in
the try block (caught, returns None); `.ok results` models a successful
recognize whose results carry the listed `alternatives[0].transcript`
strings.  Empty results return None; otherwise the transcripts are joined
with spaces. -/
def google_stt (resp : Except String (List String)) : Option String :=
  match resp with
  | .error _ => none
  | .ok results =>
      if results.isEmpty then none
      else some (String.intercalate " " results)

/-- stt_tts_utils.py `_openai_stt`: `.error e` models the transcription call
raising (caught, returns None); `.ok t` models a transcription whose `.text`
is `t`, returned verbatim. -/
def openai_stt (resp : Except String String) : Option String :=
  match resp with
  | .error _ => none
  | .ok t => some t

/-- stt_tts_utils.py `_google_tts`: `.ok audio` returns the synthesized
audio bytes (abstracted to String); any exception returns None. -/
def google_tts (resp : Except String String) : Option String :=
  match resp with
  | .error _ => none
  | .ok audio => some audio

/-- stt_tts_utils.py `_openai_tts`: `.ok audio` returns `response.content`;
any exception returns None. -/
def openai_tts (resp : Except String String) : Option String :=
  match resp with
  | .error _ => none
  | .ok audio => some audio

/-- stt_tts_utils.py `speech_to_text`: dispatch on the provider string;
"google" and "openai" call the respective implementation (traced in the
second component), any other provider returns None without invoking any
implementation. -/
def speech_to_text (googleResp : Except String (List String))
    (openaiResp : Except String String) (provider : String) :
    Option String × List ProviderCall :=
  if provider = "google" then (google_stt googleResp, [.googleSttCall])
  else if provider = "openai" then (openai_stt openaiResp, [.openaiSttCall])
  else (none, [])

/-- stt_tts_utils.py `text_to_speech`: same dispatch shape as
`speech_to_text`, over the two TTS implementations. -/
def text_to_speech (googleResp openaiResp : Except String String)
    (provider : String) : Option String × List ProviderCall :=
  if provider = "google" then (google_tts googleResp, [.googleTtsCall])
  else if provider = "openai" then (openai_tts openaiResp, [.openaiTtsCall])
  else (none, [])

/-- A one-project catalog used as concrete input in closed theorems. -/
def dbAcme : DB := ⟨[⟨"p1", "Acme", "vs1", "active", 0, 0⟩], []⟩

/-- A second concrete catalog, with a different project. -/
def dbBeta : DB := ⟨[⟨"p2", "Beta", "vs2", "active", 3, 3⟩], []⟩

/-- The empty catalog. -/
def dbEmpty : DB := ⟨[], []⟩

/-- A concrete answering oracle whose response has output_text "hello". -/
def helloOracle : String → String → Except String (Option String) :=
  fun _ _ => .ok (some "hello")

/-- C9: in the remove-document flow, the local ProjectDocument record is
deleted only after the remote remove-document call returns success.  When
the remote delete raises, the catalog is returned unchanged; when it
succeeds, exactly the local delete is applied. -/
theorem C9_remove_local_after_remote (db : DB) (pid fid e : String) :
    tab_list_remove db pid fid (Except.error e) = db ∧
    tab_list_remove db pid fid (Except.ok ()) = db_remove_project_file db pid fid :=
  ⟨rfl, rfl⟩

/-- C10: with a provider string other than "google" or "openai", both
`speech_to_text` and `text_to_speech` return none and invoke no provider
implementation (the call trace is empty), for every provider response. -/
theorem C10_unknown_provider_null (g : Except String (List String))
    (o go oo : Except String String) (p : String)
    (hg : p ≠ "google") (ho : p ≠ "openai") :
    speech_to_text g o p = (none, []) ∧ text_to_speech go oo p = (none, []) := by
  unfold speech_to_text text_to_speech
  rw [if_neg hg, if_neg ho, if_neg hg, if_neg ho]
  exact ⟨rfl, rfl⟩

theorem C10_unknown_provider_null_witness :
    speech_to_text (Except.ok []) (Except.ok "") "azure" = (none, []) ∧
    text_to_speech (Except.ok "") (Except.ok "") "azure" = (none, []) :=
  C10_unknown_provider_null (Except.ok []) (Except.ok "") (Except.ok "")
    (Except.ok "") "azure" (by decide) (by decide)

/-- C8 counterexample: with the OpenAI provider, a transcription that
succeeds but recognizes no speech (the provider returns an empty
transcript, modelled as `.ok ""`) yields `some ""`, not `none`: the OpenAI
branch returns `transcript.text` verbatim and has no empty-result check,
so "transcribe returns null when the provider yields no recognizable
speech" fails for that provider. -/
theorem C8_openai_empty_counterexample :
    (speech_to_text (Except.ok []) (Except.ok "") "openai").1 = some "" ∧
    (speech_to_text (Except.ok []) (Except.ok "") "openai").1 ≠ none := by
  constructor <;> decide

/-- C8 amended: a provider failure (exception) degrades to none for both
providers rather than raising; the Google branch additionally returns none
when the provider reports no results; the OpenAI branch returns the
provider's transcript text verbatim (so an empty transcript comes back as
`some ""`, not none). -/
theorem C8_transcribe_degrades (e t : String) (g : Except String (List String))
    (o : Except String String) :
    (speech_to_text (Except.error e) o "google").1 = none ∧
    (speech_to_text (Except.ok []) o "google").1 = none ∧
    (speech_to_text g (Except.error e) "openai").1 = none ∧
    (speech_to_text g (Except.ok t) "openai").1 = some t := by
  refine ⟨rfl, rfl, ?_, ?_⟩ <;>
    · unfold speech_to_text
      rw [if_neg (by decide : ("openai" : String) ≠ "google")]
      rfl

/-- C5 counterexample: archiving the already-archived project "p1" again
at a later timestamp does change its stored record (updated_at moves from
1 to 2), so the second archive is not a strict no-op on the row. -/
theorem C5_archive_counterexample :
    db_archive_project (db_archive_project dbAcme "p1" 1) "p1" 2 ≠
      db_archive_project dbAcme "p1" 1 := by
  decide

/-- C5 amended: re-archiving never errors (the operation is total) and
changes nothing but the matching rows' updated_at: archiving an
already-archived project maps each of its rows to the same row with only
updated_at refreshed, so status, project_name, vector_store_id (the remote
index binding) and created_at are all unchanged; project_files rows are
untouched. -/
theorem C5_archive_preserves_fields (db : DB) (pid : String) (ts ts' : Nat) :
    (db_archive_project (db_archive_project db pid ts) pid ts').projects =
      (db_archive_project db pid ts).projects.map (fun p =>
        if p.project_id = pid then { p with updated_at := ts' } else p) ∧
    (db_archive_project (db_archive_project db pid ts) pid ts').project_files =
      (db_archive_project db pid ts).project_files := by
  refine ⟨?_, rfl⟩
  unfold db_archive_project
  simp only [List.map_map]
  apply List.map_congr_left
  intro p _
  by_cases h : p.project_id = pid
  · simp [h]
  · simp [h]

/-- C6 counterexample: renaming a project_id absent from the catalog does
not fail: the UPDATE matches zero rows and the operation returns the
catalog unchanged (`Except.ok`), so "fails with NotFoundError if unknown
id" is false for this code. -/
theorem C6_rename_counterexample :
    db_rename_project dbAcme "missing" "NewName" 7 = Except.ok dbAcme := by
  rfl

/-- C6 amended: renameProject always succeeds; it maps each row with the
given project_id to the same row with only project_name and updated_at
changed (all other fields untouched), and when no row carries that
project_id it is a no-op returning the catalog unchanged (no error is
raised for an unknown id). -/
theorem C6_rename_semantics (db : DB) (pid newName : String) (ts : Nat) :
    db_rename_project db pid newName ts =
      Except.ok { db with projects := db.projects.map (fun p =>
        if p.project_id = pid then
          { p with project_name := newName, updated_at := ts }
        else p) } ∧
    ((∀ p ∈ db.projects, p.project_id ≠ pid) →
      db_rename_project db pid newName ts = Except.ok db) := by
  refine ⟨rfl, fun h => ?_⟩
  unfold db_rename_project
  have hmap : db.projects.map (fun p =>
      if p.project_id = pid then
        { p with project_name := newName, updated_at := ts }
      else p) = db.projects := by
    rw [show db.projects = db.projects.map id from (List.map_id _).symm]
    simp only [List.map_map]
    apply List.map_congr_left
    intro p hp
    simp [h p hp]
  simp [hmap]

theorem C6_rename_semantics_witness :
    db_rename_project dbBeta "nope" "Renamed" 9 = Except.ok dbBeta :=
  (C6_rename_semantics dbBeta "nope" "Renamed" 9).2 (by decide)

/-- C7: every successful POST /chat response has citations empty, whatever
the external answering capability returned (the handler constructs
`ChatResp(answer=..., citations=[])` unconditionally on the success path). -/
theorem C7_citations_always_empty (rows : List ProjectRow)
    (responses : String → String → Except String (Option String))
    (req : ChatReq) (resp : ChatResp) (calls : List AnswerCall)
    (h : chat rows responses req = (.ok resp, calls)) :
    resp.citations = [] := by
  cases hv : get_vector_store_id rows req.project_id with
  | error e =>
      simp only [chat, hv] at h
      exact absurd (congrArg Prod.fst h) (by simp)
  | ok vsId =>
      cases hr : responses vsId req.message with
      | error e2 =>
          simp only [chat, hv, hr] at h
          exact absurd (congrArg Prod.fst h) (by simp)
      | ok t =>
          simp only [chat, hv, hr] at h
          have h1 : (Except.ok (ChatResp.mk (t.getD "") []) : Except HTTPError ChatResp) =
              Except.ok resp := congrArg Prod.fst h
          injection h1 with h2
          rw [← h2]

theorem C7_citations_always_empty_witness :
    (ChatResp.mk "hello" []).citations = [] :=
  C7_citations_always_empty dbAcme.projects helloOracle ⟨"p1", "u1", "hi"⟩
    ⟨"hello", []⟩ [AnswerCall.responsesCreate "vs1" "hi"] rfl

/-- C3: when no catalog row matches the requested project_id with status
"active" (the project is absent or archived), POST /chat fails with the
404 NotFoundError from `get_vector_store_id` and the trace of gateway
calls is empty: resolving the project to its vector store id happens
before any remote call. -/
theorem C3_chat_requires_active_project (rows : List ProjectRow)
    (responses : String → String → Except String (Option String)) (req : ChatReq)
    (h : ∀ r ∈ rows, ¬ (r.project_id = req.project_id ∧ r.status = "active")) :
    chat rows responses req =
      (.error ⟨404, "project_id not found or inactive: " ++ req.project_id⟩, []) := by
  have hf : rows.find?
      (fun r => decide (r.project_id = req.project_id ∧ r.status = "active")) = none := by
    apply List.find?_eq_none.mpr
    intro x hx
    simpa using h x hx
  simp only [chat, get_vector_store_id, hf]

/-- The catalog rows of a project that exists but is archived. -/
def archivedRows : List ProjectRow := [⟨"p1", "Acme", "vs1", "archived", 0, 0⟩]

theorem C3_chat_requires_active_project_witness :
    chat archivedRows helloOracle ⟨"p1", "u1", "hi"⟩ =
      (.error ⟨404, "project_id not found or inactive: " ++ "p1"⟩, []) :=
  C3_chat_requires_active_project archivedRows helloOracle ⟨"p1", "u1", "hi"⟩ (by decide)

/-- C4: after a createProject succeeds binding remote index `vs`, a second
createProject for `vs` fails with ConflictError (the IntegrityError of the
UNIQUE constraint), the catalog holds exactly one project bound to `vs`,
and createProject preserves the at-most-one-binding invariant for every
index id. -/
theorem C4_unique_index_binding (db db1 : DB) (p1 n1 vs p2 n2 : String) (ts1 ts2 : Nat)
    (h : db_create_project db p1 n1 vs ts1 = Except.ok db1) :
    db_create_project db1 p2 n2 vs ts2 = Except.error CatalogError.conflict ∧
    countVs db1 vs = 1 ∧
    (∀ v, countVs db v ≤ 1 → countVs db1 v ≤ 1) := by
  unfold db_create_project at h
  by_cases ha : db.projects.any (fun p => decide (p.project_id = p1)) = true
  · rw [if_pos ha] at h; cases h
  · rw [if_neg ha] at h
    by_cases hb : db.projects.any (fun p => decide (p.vector_store_id = vs)) = true
    · rw [if_pos hb] at h; cases h
    · rw [if_neg hb] at h
      injection h with hdb
      subst hdb
      have hb' : ∀ p ∈ db.projects, ¬ p.vector_store_id = vs := by
        simpa [List.any_eq_true] using hb
      have hnil : db.projects.filter (fun p => decide (p.vector_store_id = vs)) = [] := by
        apply List.filter_eq_nil_iff.mpr
        intro a ha2
        simp [hb' a ha2]
      refine ⟨?_, ?_, ?_⟩
      · unfold db_create_project
        by_cases hc : ({ db with projects :=
            db.projects ++ [⟨p1, n1, vs, "active", ts1, ts1⟩] } : DB).projects.any
              (fun p => decide (p.project_id = p2)) = true
        · rw [if_pos hc]
        · rw [if_neg hc, if_pos ?_]
          apply List.any_eq_true.mpr
          exact ⟨⟨p1, n1, vs, "active", ts1, ts1⟩,
            List.mem_append_right _ (List.mem_singleton_self _), by simp⟩
      · simp [countVs, List.filter_append, hnil]
      · intro v hv
        by_cases hvv : vs = v
        · subst hvv
          simp [countVs, List.filter_append, hnil]
        · have hrow : ([⟨p1, n1, vs, "active", ts1, ts1⟩] : List ProjectRow).filter
              (fun p => decide (p.vector_store_id = v)) = [] := by
            simp [hvv]
          simpa [countVs, List.filter_append, hrow] using hv

/-- The one-project catalog produced by a successful createProject on the
empty catalog, used as the concrete input of the C4 witness. -/
def dbCreated : DB := ⟨[⟨"p8", "Proj", "vsNew", "active", 4, 4⟩], []⟩

theorem C4_unique_index_binding_witness :
    db_create_project dbCreated "p9" "Other" "vsNew" 5 = Except.error CatalogError.conflict ∧
    countVs dbCreated "vsNew" = 1 :=
  ⟨(C4_unique_index_binding dbEmpty dbCreated "p8" "Proj" "vsNew" "p9" "Other" 4 5 rfl).1,
   (C4_unique_index_binding dbEmpty dbCreated "p8" "Proj" "vsNew" "p9" "Other" 4 5 rfl).2.1⟩

/-- After recording an upload with fingerprint `sha`, the dedup existence
check for `sha` in that project holds. -/
lemma has_sha_add_self (db : DB) (pid fid fn sha : String) (ts : Nat) :
    db_has_sha_in_project (db_add_project_file db pid fid fn (some sha) ts) pid sha = true := by
  unfold db_has_sha_in_project db_add_project_file
  apply List.any_eq_true.mpr
  exact ⟨⟨pid, fid, fn, some sha, ts⟩,
    List.mem_append_right _ (List.mem_singleton_self _), by simp⟩

/-- Recording an upload into a project that had no row with fingerprint
`sha` leaves exactly one row with that fingerprint. -/
lemma countSha_add (db : DB) (pid fid fn sha : String) (ts : Nat)
    (h : db_has_sha_in_project db pid sha = false) :
    countSha (db_add_project_file db pid fid fn (some sha) ts) pid sha = 1 := by
  have hall : ∀ r ∈ db.project_files, ¬ (r.project_id = pid ∧ r.sha256 = some sha) := by
    simpa [db_has_sha_in_project, List.any_eq_false] using h
  unfold countSha db_add_project_file
  dsimp only
  rw [List.filter_append, List.filter_filter]
  have hnil : db.project_files.filter (fun a =>
      decide (a.project_id = pid ∧ a.sha256 = some sha) &&
      decide (¬ (a.project_id = pid ∧ a.file_id = fid))) = [] := by
    apply List.filter_eq_nil_iff.mpr
    intro a ha
    simp [hall a ha]
  rw [hnil]
  simp

/-- C2: uploading the same contents twice with dedup enabled leaves exactly
one project_files row for that fingerprint in the project, and the second
upload issues zero remote calls (no Files upload, no vector-store
registration): the second pass hits the sha check and skips the file. -/
theorem C2_dedup_upload (db : DB) (pid vsId fn sha f1 f2 : String) (ts1 ts2 : Nat)
    (h : db_has_sha_in_project db pid sha = false) :
    countSha (tab_upload_one true (tab_upload_one true db pid vsId fn sha f1 ts1).1
      pid vsId fn sha f2 ts2).1 pid sha = 1 ∧
    (tab_upload_one true (tab_upload_one true db pid vsId fn sha f1 ts1).1
      pid vsId fn sha f2 ts2).2 = [] := by
  have h1 : tab_upload_one true db pid vsId fn sha f1 ts1 =
      (db_add_project_file db pid f1 fn (some sha) ts1,
       [.filesCreate fn sha, .fileBatchesCreate vsId f1]) := by
    simp [tab_upload_one, h]
  have h2 : db_has_sha_in_project (db_add_project_file db pid f1 fn (some sha) ts1)
      pid sha = true := has_sha_add_self db pid f1 fn sha ts1
  have h3 : tab_upload_one true (db_add_project_file db pid f1 fn (some sha) ts1)
      pid vsId fn sha f2 ts2 = (db_add_project_file db pid f1 fn (some sha) ts1, []) := by
    simp [tab_upload_one, h2]
  rw [h1]
  dsimp only
  rw [h3]
  exact ⟨countSha_add db pid f1 fn sha ts1 h, rfl⟩

theorem C2_dedup_upload_witness :
    countSha (tab_upload_one true (tab_upload_one true dbEmpty "p" "vs" "a.pdf" "h1" "f1" 0).1
      "p" "vs" "a.pdf" "h1" "f2" 1).1 "p" "h1" = 1 ∧
    (tab_upload_one true (tab_upload_one true dbEmpty "p" "vs" "a.pdf" "h1" "f1" 0).1
      "p" "vs" "a.pdf" "h1" "f2" 1).2 = [] :=
  C2_dedup_upload dbEmpty "p" "vs" "a.pdf" "h1" "f1" "f2" 0 1 (by decide)

/-- Characterization of the catalog's file-id set for a project. -/
lemma mem_localFileIds (db : DB) (pid x : String) :
    x ∈ localFileIds db pid ↔
      ∃ r ∈ db.project_files, r.project_id = pid ∧ r.file_id = x := by
  simp only [localFileIds, db_list_project_files, List.mem_dedup, List.mem_map,
    List.mem_filter, decide_eq_true_eq]
  constructor
  · rintro ⟨a, ⟨ha, hpid⟩, hfl⟩
    exact ⟨a, ha, hpid, hfl⟩
  · rintro ⟨a, ha, hpid, hfl⟩
    exact ⟨a, ⟨ha, hpid⟩, hfl⟩

/-- Effect of one catalog upsert on the project's file-id set: the id set
gains `fid` and keeps every other id. -/
lemma localFileIds_add (db : DB) (pid fid fn : String) (sha : Option String)
    (ts : Nat) (x : String) :
    x ∈ localFileIds (db_add_project_file db pid fid fn sha ts) pid ↔
      x ∈ localFileIds db pid ∨ x = fid := by
  rw [mem_localFileIds, mem_localFileIds]
  unfold db_add_project_file
  dsimp only
  constructor
  · rintro ⟨r, hr, hpid, hfl⟩
    rcases List.mem_append.mp hr with hk | hrow
    · exact Or.inl ⟨r, (List.mem_filter.mp hk).1, hpid, hfl⟩
    · have hre : r = ⟨pid, fid, fn, sha, ts⟩ := List.mem_singleton.mp hrow
      subst hre
      exact Or.inr hfl.symm
  · rintro (⟨r, hr, hpid, hfl⟩ | hx)
    · by_cases hxf : x = fid
      · exact ⟨⟨pid, fid, fn, sha, ts⟩,
          List.mem_append_right _ (List.mem_singleton_self _), rfl, hxf.symm⟩
      · refine ⟨r, List.mem_append_left _ (List.mem_filter.mpr ⟨hr, ?_⟩), hpid, hfl⟩
        simp only [decide_eq_true_eq]
        rintro ⟨-, hf2⟩
        exact hxf (hfl.symm.trans hf2)
    · exact ⟨⟨pid, fid, fn, sha, ts⟩,
        List.mem_append_right _ (List.mem_singleton_self _), rfl, hx.symm⟩

/-- Effect of repair's fold on the project's file-id set. -/
lemma localFileIds_foldl_add (l : List String) (db : DB) (pid : String)
    (ts : Nat) (x : String) :
    x ∈ localFileIds (l.foldl (fun d fid => db_add_project_file d pid fid fid none ts) db) pid ↔
      x ∈ localFileIds db pid ∨ x ∈ l := by
  induction l generalizing db with
  | nil => simp
  | cons a as ih =>
      rw [List.foldl_cons, ih, localFileIds_add]
      simp only [List.mem_cons]
      tauto

/-- The reported only-local list is exactly the set difference L - R. -/
lemma mem_reconcile_onlyLocal (db : DB) (pid : String) (remoteIds : List String)
    (x : String) :
    x ∈ (reconcile db pid remoteIds).2.1 ↔
      x ∈ localFileIds db pid ∧ x ∉ remoteIds := by
  simp [reconcile, List.mem_filter, List.mem_dedup]

/-- The reported only-remote list is exactly the set difference R - L. -/
lemma mem_reconcile_onlyRemote (db : DB) (pid : String) (remoteIds : List String)
    (x : String) :
    x ∈ (reconcile db pid remoteIds).2.2 ↔
      x ∈ remoteIds ∧ x ∉ localFileIds db pid := by
  simp [reconcile, List.mem_filter, List.mem_dedup]

/-- After repair, the project's file-id set is the union of the original
local set and the remote set. -/
lemma repair_mem (db : DB) (pid : String) (remoteIds : List String) (ts : Nat)
    (x : String) :
    x ∈ localFileIds (repair db pid remoteIds ts) pid ↔
      x ∈ localFileIds db pid ∨ x ∈ remoteIds := by
  unfold repair
  rw [localFileIds_foldl_add, mem_reconcile_onlyRemote]
  tauto

/-- repair unfolded to its fold (definition restatement used to rewrite a
selected occurrence). -/
lemma repair_eq (db : DB) (pid : String) (remoteIds : List String) (ts : Nat) :
    repair db pid remoteIds ts =
      (reconcile db pid remoteIds).2.2.foldl
        (fun d fid => db_add_project_file d pid fid fid none ts) db := rfl

/-- A second repair is a strict no-op: after the first repair the remote
set is contained in the local set, so the reported only-remote list is
empty and the fold adds nothing. -/
lemma repair_idempotent (db : DB) (pid : String) (remoteIds : List String)
    (ts ts' : Nat) :
    repair (repair db pid remoteIds ts) pid remoteIds ts' =
      repair db pid remoteIds ts := by
  have hnil : (reconcile (repair db pid remoteIds ts) pid remoteIds).2.2 = [] := by
    unfold reconcile
    dsimp only
    apply List.filter_eq_nil_iff.mpr
    intro a ha
    have haR : a ∈ remoteIds := List.mem_dedup.mp ha
    have haL : a ∈ localFileIds (repair db pid remoteIds ts) pid :=
      (repair_mem db pid remoteIds ts a).mpr (Or.inr haR)
    simp [haL]
  rw [repair_eq (repair db pid remoteIds ts) pid remoteIds ts', hnil]
  rfl

/-- C1: reconcile reports exactly the two set differences of the local and
remote document-id sets and leaves the catalog unchanged; repair makes the
local id set the union of the original local and remote sets; a second
repair changes nothing. -/
theorem C1_reconcile_repair (db : DB) (pid : String) (remoteIds : List String)
    (ts ts' : Nat) :
    (reconcile db pid remoteIds).1 = db ∧
    (∀ x, x ∈ (reconcile db pid remoteIds).2.1 ↔
        x ∈ localFileIds db pid ∧ x ∉ remoteIds) ∧
    (∀ x, x ∈ (reconcile db pid remoteIds).2.2 ↔
        x ∈ remoteIds ∧ x ∉ localFileIds db pid) ∧
    (∀ x, x ∈ localFileIds (repair db pid remoteIds ts) pid ↔
        x ∈ localFileIds db pid ∨ x ∈ remoteIds) ∧
    repair (repair db pid remoteIds ts) pid remoteIds ts' =
      repair db pid remoteIds ts :=
  ⟨rfl,
   fun x => mem_reconcile_onlyLocal db pid remoteIds x,
   fun x => mem_reconcile_onlyRemote db pid remoteIds x,
   fun x => repair_mem db pid remoteIds ts x,
   repair_idempotent db pid remoteIds ts ts'⟩
